import Mathlib

/-!
Verification of the claim-level hallucination detection algorithm
(`src/detection/detection_module.py`), the analysis pipeline
(`src/detection/main.py`) and the answer generator wrapper
(`src/detection/gemini_integration.py`).

The ML models (sentence segmenter, NLI classifier, sentence-embedding
similarity) are opaque collaborators of the algorithm: they are modelled as
function-valued fields of the `HallucinationDetector` structure, so every
theorem below is quantified over their behaviour.  Probabilities and
similarity scores are modelled as rationals.
-/

/-- Python `str.strip()`: remove leading and trailing whitespace. -/
def pyStrip (s : String) : String :=
  ⟨((s.data.dropWhile Char.isWhitespace).reverse.dropWhile Char.isWhitespace).reverse⟩

/-- Python `str.startswith(pre)`. -/
def pyStartsWith (s pre : String) : Bool :=
  decide (s.data.take pre.data.length = pre.data)

/-- Binary maximum on ℚ, written out so that it evaluates by kernel reduction. -/
def qmax (a b : ℚ) : ℚ := if a ≤ b then b else a

/-- Maximum of a list of scores, as `torch.max(t, dim=0).values` on a
non-empty tensor; `0` for the (guarded-against) empty list. -/
def listMax : List ℚ → ℚ
  | [] => 0
  | x :: xs => xs.foldl qmax x

/-- Index of the first occurrence of the maximum, as
`torch.max(t, dim=0).indices` / `torch.argmax`. -/
def argmaxIdx (l : List ℚ) : Nat :=
  l.findIdx fun x => decide (x = listMax l)

/-- One row of the 3-way softmax of the NLI model
(`detection_module.py` line 122): index 0 = contradiction, index 1 = neutral,
index 2 = entailment (lines 75-76). -/
structure NLIProbs where
  contradiction : ℚ
  neutral : ℚ
  entailment : ℚ

/-- The method-specific diagnostic keys that `detect_hallucination` ever puts
into the `details` dictionary (lines 100, 103, 109, 133-137, 149-154, 160). -/
structure Details where
  reason : Option String
  problem_claim : Option String
  contradictory_evidence : Option String
  contradiction_score : Option ℚ
  max_similarity_score : Option ℚ
  closest_evidence : Option String
deriving DecidableEq

/-- `DetectionResult` (`detection_module.py` lines 33-43). -/
structure DetectionResult where
  is_hallucination : Bool
  confidence_score : ℚ
  detection_method : String
  raw_answer : String
  evidence_docs : List String
  details : Details
deriving DecidableEq

/-- The state of a constructed `HallucinationDetector`
(`detection_module.py` lines 56-76): the three thresholds together with the
loaded models, the latter modelled as opaque functions — `sentTokenize` is
`nltk.tokenize.sent_tokenize`, `nli premise hypothesis` is the softmaxed NLI
classifier on one (premise, hypothesis) pair, and `cosSim claim evidence` is
the cosine similarity of the two embeddings
(`util.pytorch_cos_sim(encode claim, encode evidence)`). -/
structure HallucinationDetector where
  sentTokenize : String → List String
  nli : String → String → NLIProbs
  cosSim : String → String → ℚ
  similarity_threshold : ℚ
  contradiction_threshold : ℚ
  entailment_threshold : ℚ

/-- The per-pair entailment probabilities for one claim against the evidence
pool: `all_probs[:, self.ENTAILMENT_INDEX]` (line 123), with the pairs built
as `(evidence_sent, claim)` (line 113). -/
def entailmentProbs (det : HallucinationDetector) (evS : List String) (claim : String) : List ℚ :=
  evS.map fun s => (det.nli s claim).entailment

/-- The per-pair contradiction probabilities:
`all_probs[:, self.CONTRADICTION_INDEX]` (line 124). -/
def contradictionProbs (det : HallucinationDetector) (evS : List String) (claim : String) : List ℚ :=
  evS.map fun s => (det.nli s claim).contradiction

/-- The per-evidence-sentence cosine similarities for one claim:
`util.pytorch_cos_sim(claim_embedding, evidence_embeddings)[0]` (lines 142-145). -/
def similarityScores (det : HallucinationDetector) (evS : List String) (claim : String) : List ℚ :=
  evS.map fun s => det.cosSim claim s

/-- The body of the per-claim loop of `detect_hallucination`
(`detection_module.py` lines 111-158): `none` means the loop `continue`s to
the next claim, `some r` means the loop `return`s `r` for the whole answer. -/
def verifyClaim (det : HallucinationDetector) (answer : String) (evidence_docs : List String)
    (evS : List String) (claim : String) : Option DetectionResult :=
  if evS = [] then none
  else
    let entailment_probs := entailmentProbs det evS claim
    if det.entailment_threshold < listMax entailment_probs then none
    else
      let contradiction_probs := contradictionProbs det evS claim
      let max_contradiction_score := listMax contradiction_probs
      if det.contradiction_threshold < max_contradiction_score then
        some ⟨true, max_contradiction_score, "contradiction", answer, evidence_docs,
          ⟨none, some claim, some (evS.getD (argmaxIdx contradiction_probs) ""),
           some max_contradiction_score, none, none⟩⟩
      else
        let similarity_scores := similarityScores det evS claim
        let max_similarity_score := listMax similarity_scores
        if max_similarity_score < det.similarity_threshold then
          some ⟨true, 1 - max_similarity_score, "low_similarity", answer, evidence_docs,
            ⟨some "Low similarity to all evidence.", some claim, none, none,
             some max_similarity_score, some (evS.getD (argmaxIdx similarity_scores) "")⟩⟩
        else none

/-- The `for claim in answer_claims` loop of `detect_hallucination`
(lines 111-162): return on the first claim with a verdict, else the terminal
"verified" result (line 162). -/
def checkClaims (det : HallucinationDetector) (answer : String) (evidence_docs : List String)
    (evS : List String) : List String → DetectionResult
  | [] =>
    ⟨false, 1, "verified", answer, evidence_docs,
      ⟨some "All claims in the answer were successfully verified against the evidence.",
       none, none, none, none, none⟩⟩
  | claim :: rest =>
    match verifyClaim det answer evidence_docs evS claim with
    | some r => r
    | none => checkClaims det answer evidence_docs evS rest

/-- `HallucinationDetector.detect_hallucination` (`detection_module.py`
lines 95-162). -/
def detect_hallucination (det : HallucinationDetector) (answer : String)
    (evidence_docs : List String) : DetectionResult :=
  if pyStrip answer = "" then
    ⟨false, 1, "empty_answer", answer, evidence_docs,
      ⟨some "Answer was empty.", none, none, none, none, none⟩⟩
  else if evidence_docs = [] then
    ⟨true, 1, "no_evidence", answer, [],
      ⟨some "No evidence documents were provided.", none, none, none, none, none⟩⟩
  else
    let answer_claims := det.sentTokenize answer
    let all_evidence_sentences :=
      (evidence_docs.flatMap det.sentTokenize).filter fun s => !(pyStrip s == "")
    if all_evidence_sentences = [] then
      ⟨true, 1, "no_evidence", answer, evidence_docs,
        ⟨some "Evidence documents contain no text.", none, none, none, none, none⟩⟩
    else
      checkClaims det answer evidence_docs all_evidence_sentences answer_claims

/-- Result dictionary of `HallucinationAnalysisPipeline.generate_and_detect`
(`main.py` lines 59-66 and 74-75): the generation-error path carries only the
`error` detail, the normal path carries the detection result's fields. -/
structure PipelineResult where
  question : String
  raw_answer : String
  is_hallucination : Bool
  confidence_score : ℚ
  detection_method : String
  evidence_docs : Option (List String)
  details : Option Details
  error : Option String
deriving DecidableEq

/-- `HallucinationAnalysisPipeline.generate_and_detect` (`main.py`
lines 45-87), with the generator and the constructed detector passed as the
functions the pipeline's two components provide. -/
def generate_and_detect (gen : String → String)
    (detect : String → List String → DetectionResult)
    (question : String) (evidence_docs : List String) : PipelineResult :=
  let raw_answer := gen question
  if pyStartsWith raw_answer "Error:" then
    ⟨question, raw_answer, true, 1, "generation_error", none, none, some raw_answer⟩
  else
    let d := detect raw_answer evidence_docs
    ⟨question, d.raw_answer, d.is_hallucination, d.confidence_score, d.detection_method,
      some d.evidence_docs, some d.details, none⟩

/-- Outcome of one `self.model.invoke(question)` attempt inside
`GeminiLLM.generate_answer` (`gemini_integration.py` lines 80-93). -/
inductive AttemptOutcome where
  | success (content : String)
  | rateLimited (msg : String)
  | otherError (msg : String)
deriving DecidableEq

/-- The error sentinel built at `gemini_integration.py` lines 95-98. -/
def retryErrorMessage (maxRetries : Nat) (lastError : Option String) : String :=
  let base := "Error: Failed to generate answer from API after "
    ++ toString maxRetries ++ " retries."
  match lastError with
  | none => base
  | some e => base ++ " Last error: " ++ e

/-- The `for attempt in range(max_retries)` loop of `GeminiLLM.generate_answer`
(lines 79-98).  Returns the answer string together with the list of backoff
wait times (`2 ** attempt`, line 86) that were slept through. -/
def genLoop (attempts : Nat → AttemptOutcome) (maxRetries : Nat)
    (i : Nat) (lastError : Option String) : String × List Nat :=
  if i < maxRetries then
    match attempts i with
    | .success c => (pyStrip c, [])
    | .rateLimited e =>
      let r := genLoop attempts maxRetries (i + 1) (some e)
      (r.1, 2 ^ i :: r.2)
    | .otherError e => (retryErrorMessage maxRetries (some e), [])
  else
    (retryErrorMessage maxRetries lastError, [])
termination_by maxRetries - i
decreasing_by omega

/-- `GeminiLLM.generate_answer` (`gemini_integration.py` lines 72-98):
`apiWorking`/`hasModel` are the `self.api_working` / `self.model` state left
by the constructor; `attempts i` is the outcome of the i-th `invoke` call. -/
def generate_answer (apiWorking hasModel : Bool) (attempts : Nat → AttemptOutcome)
    (maxRetries : Nat) : String × List Nat :=
  if !apiWorking || !hasModel then
    ("Error: Unable to access Gemini API. Please check your configuration and API key.", [])
  else
    genLoop attempts maxRetries 0 none

/-- Which step of `HallucinationDetector._load_models`
(`detection_module.py` lines 78-93) fails, if any. -/
inductive ModelLoadOutcome where
  | success
  | similarityModelFails (e : String)
  | nliTokenizerFails (e : String)
  | nliModelFails (e : String)
deriving DecidableEq

/-- `HallucinationDetector._load_models` (lines 78-93): any exception is
logged and re-raised (`raise`, line 93), modelled as `Except.error`. -/
def load_models : ModelLoadOutcome → Except String Unit
  | .success => .ok ()
  | .similarityModelFails e => .error e
  | .nliTokenizerFails e => .error e
  | .nliModelFails e => .error e

/-- The `self.model` / `self.api_working` state a `GeminiLLM` constructor
leaves behind (`gemini_integration.py` lines 39-40). -/
structure GeminiState where
  hasModel : Bool
  apiWorking : Bool
deriving DecidableEq

/-- How `GeminiLLM._initialize_llm` (`gemini_integration.py` lines 43-65)
can go: no API key (early `return`, line 49), the `ChatGoogleGenerativeAI`
construction raising, the test `invoke` raising (both caught at line 63), or
full success. -/
inductive GeminiInitOutcome where
  | noApiKey
  | constructionFails (e : String)
  | testInvokeFails (e : String)
  | success
deriving DecidableEq

/-- `GeminiLLM._initialize_llm` (lines 43-65).  The `except` clause calls
`self.use_fallback` and swallows the exception, so every outcome yields a
completed constructor state (`Except.ok`); only `api_working`/`model`
record the failure. -/
def init_llm : GeminiInitOutcome → Except String GeminiState
  | .noApiKey => .ok ⟨false, false⟩
  | .constructionFails _ => .ok ⟨false, false⟩
  | .testInvokeFails _ => .ok ⟨true, false⟩
  | .success => .ok ⟨true, true⟩

/-- A concrete detector used to instantiate the parametric theorems: every
sentence is its own segment, the NLI model fully entails everything, and the
thresholds are the constructor defaults (0.5 / 0.98 / 0.92,
`detection_module.py` lines 62-64). -/
def detEnt : HallucinationDetector :=
  ⟨fun s => [s], fun _ _ => ⟨0, 0, 1⟩, fun _ _ => 1,
   mkRat 1 2, mkRat 98 100, mkRat 92 100⟩

/-- A concrete detector whose NLI model reports near-certain contradiction
(0.99) and no entailment for every pair. -/
def detCon : HallucinationDetector :=
  ⟨fun s => [s], fun _ _ => ⟨mkRat 99 100, mkRat 1 100, 0⟩, fun _ _ => 1,
   mkRat 1 2, mkRat 98 100, mkRat 92 100⟩

/-- A concrete detector whose NLI model is always neutral and whose
embeddings give similarity 0.1 to every pair. -/
def detSim : HallucinationDetector :=
  ⟨fun s => [s], fun _ _ => ⟨0, 1, 0⟩, fun _ _ => mkRat 1 10,
   mkRat 1 2, mkRat 98 100, mkRat 92 100⟩

/-- A concrete detector that entails every claim except the claim "bad",
which it contradicts with probability 0.99. -/
def detFirst : HallucinationDetector :=
  ⟨fun s => [s],
   fun _ c => if c = "bad" then ⟨mkRat 99 100, mkRat 1 100, 0⟩ else ⟨0, 0, 1⟩,
   fun _ _ => 1, mkRat 1 2, mkRat 98 100, mkRat 92 100⟩

/-- A concrete detector whose NLI model is always neutral and whose
embeddings give cosine similarity -1/2 to every pair — a value cosine
similarity can legitimately take. -/
def detNeg : HallucinationDetector :=
  ⟨fun s => [s], fun _ _ => ⟨0, 1, 0⟩, fun _ _ => mkRat (-1) 2,
   mkRat 1 2, mkRat 98 100, mkRat 92 100⟩

theorem qmax_choice (a b : ℚ) : qmax a b = a ∨ qmax a b = b := by
  unfold qmax; split <;> tauto

theorem listMax_cons_mem (x : ℚ) (xs : List ℚ) : listMax (x :: xs) ∈ x :: xs := by
  induction xs generalizing x with
  | nil => simp [listMax]
  | cons y ys ih =>
    have h : listMax (x :: y :: ys) = listMax (qmax x y :: ys) := by
      simp [listMax, List.foldl]
    rw [h]
    rcases qmax_choice x y with hm | hm <;>
      rcases List.mem_cons.mp (ih (qmax x y)) with hmem | hmem <;>
        simp_all [List.mem_cons]

theorem listMax_bounds_of_mem_bounds {l : List ℚ} {lo hi : ℚ}
    (hb : ∀ x ∈ l, lo ≤ x ∧ x ≤ hi) (hne : l ≠ []) :
    lo ≤ listMax l ∧ listMax l ≤ hi := by
  rcases l with _ | ⟨x, xs⟩
  · exact absurd rfl hne
  · exact hb _ (listMax_cons_mem x xs)

/-- Whenever the loop body returns a verdict, that verdict is a
hallucination verdict, names the claim under scrutiny as the problem claim,
the evidence pool was non-empty, and the confidence score is the maximum
contradiction probability or one minus the maximum similarity, matching the
detection method. -/
theorem verifyClaim_some_shape (det : HallucinationDetector) (a : String)
    (docs : List String) (evS : List String) (claim : String) (r : DetectionResult)
    (h : verifyClaim det a docs evS claim = some r) :
    r.is_hallucination = true ∧ r.details.problem_claim = some claim ∧ evS ≠ [] ∧
      ((r.detection_method = "contradiction" ∧
        r.confidence_score = listMax (contradictionProbs det evS claim)) ∨
       (r.detection_method = "low_similarity" ∧
        r.confidence_score = 1 - listMax (similarityScores det evS claim))) := by
  simp only [verifyClaim] at h
  split at h
  · simp at h
  · rename_i hne
    split at h
    · simp at h
    · split at h
      · rw [Option.some_inj] at h
        subst h
        exact ⟨rfl, rfl, hne, Or.inl ⟨rfl, rfl⟩⟩
      · split at h
        · rw [Option.some_inj] at h
          subst h
          exact ⟨rfl, rfl, hne, Or.inr ⟨rfl, rfl⟩⟩
        · simp at h

/-- C1: For every claim in the answer, if the maximum entailment probability
over all (evidence sentence as premise, claim as hypothesis) pairs exceeds
the entailment threshold, the claim is judged SUPPORTED and the detector
moves to the next claim without performing the contradiction check or the
similarity fallback — in particular the outcome for this claim is unchanged
under arbitrary replacement of the contradiction probabilities and of the
similarity model. -/
theorem entailment_short_circuits (det : HallucinationDetector) (a : String)
    (docs : List String) (evS : List String) (claim : String) (rest : List String)
    (hent : det.entailment_threshold < listMax (entailmentProbs det evS claim)) :
    verifyClaim det a docs evS claim = none ∧
    checkClaims det a docs evS (claim :: rest) = checkClaims det a docs evS rest ∧
    ∀ (nli' : String → String → NLIProbs) (cosSim' : String → String → ℚ),
      (∀ p hyp, (nli' p hyp).entailment = (det.nli p hyp).entailment) →
      verifyClaim { det with nli := nli', cosSim := cosSim' } a docs evS claim = none := by
  have part1 : verifyClaim det a docs evS claim = none := by
    by_cases hne : evS = []
    · simp [verifyClaim, hne]
    · simp [verifyClaim, hne, hent]
  refine ⟨part1, by simp [checkClaims, part1], ?_⟩
  intro nli' cosSim' hsame
  have hp : entailmentProbs { det with nli := nli', cosSim := cosSim' } evS claim
      = entailmentProbs det evS claim := by
    unfold entailmentProbs
    exact List.map_congr_left fun s _ => by rw [hsame]
  by_cases hne : evS = []
  · simp [verifyClaim, hne]
  · simp only [verifyClaim, hp, if_neg hne]
    rw [if_pos hent]

/-- C1 witness: at a concrete detector whose NLI model fully entails the
claim, the loop body returns no verdict. -/
theorem entailment_short_circuits_witness :
    verifyClaim detEnt "a" ["d"] ["e"] "c" = none :=
  (entailment_short_circuits detEnt "a" ["d"] ["e"] "c" [] (by decide)).1

/-- C2: For every claim whose maximum entailment probability does not exceed
the entailment threshold, if the maximum contradiction probability over the
same batch exceeds the contradiction threshold, detection immediately
returns a hallucination verdict with method "contradiction", confidence
equal to that maximum contradiction probability, and details identifying
the offending claim and the evidence sentence at the index of the maximum
contradiction probability — regardless of the remaining claims. -/
theorem contradiction_verdict (det : HallucinationDetector) (a : String)
    (docs : List String) (evS : List String) (claim : String) (rest : List String)
    (hne : evS ≠ [])
    (hent : ¬ det.entailment_threshold < listMax (entailmentProbs det evS claim))
    (hcon : det.contradiction_threshold < listMax (contradictionProbs det evS claim)) :
    checkClaims det a docs evS (claim :: rest) =
      ⟨true, listMax (contradictionProbs det evS claim), "contradiction", a, docs,
        ⟨none, some claim,
         some (evS.getD (argmaxIdx (contradictionProbs det evS claim)) ""),
         some (listMax (contradictionProbs det evS claim)), none, none⟩⟩ := by
  simp [checkClaims, verifyClaim, hne, hent, hcon]

/-- C2 witness: at a concrete detector with contradiction probability 0.99
for the only evidence sentence, the verdict is "contradiction" with that
probability as confidence and the evidence sentence in the details. -/
theorem contradiction_verdict_witness :
    (checkClaims detCon "a" ["d"] ["e"] ["c"]).detection_method = "contradiction" ∧
    (checkClaims detCon "a" ["d"] ["e"] ["c"]).confidence_score = mkRat 99 100 ∧
    (checkClaims detCon "a" ["d"] ["e"] ["c"]).details.contradictory_evidence = some "e" := by
  have h := contradiction_verdict detCon "a" ["d"] ["e"] "c" []
    (by decide) (by decide) (by decide)
  rw [h]
  exact ⟨rfl, by decide, by decide⟩

/-- C3: For every claim for which neither the entailment check nor the
contradiction check fires, if the maximum cosine similarity between the
claim and all evidence sentences is below the similarity threshold,
detection returns a hallucination verdict with method "low_similarity",
confidence one minus the maximum similarity, and details naming the closest
evidence sentence (at the argmax of the similarity scores); otherwise the
claim is considered supported and processing continues to the next claim. -/
theorem similarity_fallback_verdict (det : HallucinationDetector) (a : String)
    (docs : List String) (evS : List String) (claim : String) (rest : List String)
    (hne : evS ≠ [])
    (hent : ¬ det.entailment_threshold < listMax (entailmentProbs det evS claim))
    (hcon : ¬ det.contradiction_threshold < listMax (contradictionProbs det evS claim)) :
    (listMax (similarityScores det evS claim) < det.similarity_threshold →
      checkClaims det a docs evS (claim :: rest) =
        ⟨true, 1 - listMax (similarityScores det evS claim), "low_similarity", a, docs,
          ⟨some "Low similarity to all evidence.", some claim, none, none,
           some (listMax (similarityScores det evS claim)),
           some (evS.getD (argmaxIdx (similarityScores det evS claim)) "")⟩⟩) ∧
    (det.similarity_threshold ≤ listMax (similarityScores det evS claim) →
      checkClaims det a docs evS (claim :: rest) = checkClaims det a docs evS rest) := by
  constructor
  · intro hsim
    simp [checkClaims, verifyClaim, hne, hent, hcon, hsim]
  · intro hsim
    simp [checkClaims, verifyClaim, hne, hent, hcon, not_lt.mpr hsim]

/-- C3 witness: at a concrete detector with neutral NLI output and
similarity 0.1 for the only evidence sentence, the verdict is
"low_similarity" and names the closest evidence sentence. -/
theorem similarity_fallback_verdict_witness :
    (checkClaims detSim "a" ["d"] ["e"] ["c"]).detection_method = "low_similarity" ∧
    (checkClaims detSim "a" ["d"] ["e"] ["c"]).details.closest_evidence = some "e" := by
  have h := (similarity_fallback_verdict detSim "a" ["d"] ["e"] "c" []
    (by decide) (by decide) (by decide)).1 (by decide)
  rw [h]
  exact ⟨rfl, by decide⟩

/-- C4: Claims are processed strictly in original order: if every claim
yields no verdict, the loop returns the "verified" non-hallucination result
with confidence 1; for any decomposition pre ++ claim :: post where all
claims of pre pass and claim yields a verdict r, the loop returns r — so the
verdict is that of the FIRST failing claim, r names it as problem claim, and
no later claim influences the result (post is arbitrary); and whenever the
initial guards pass, detect_hallucination is exactly this loop over the
answer claims in original segmentation order. -/
theorem first_failing_claim_aggregation (det : HallucinationDetector) (a : String)
    (docs : List String) (evS : List String) :
    (∀ claims : List String,
        (∀ c ∈ claims, verifyClaim det a docs evS c = none) →
        checkClaims det a docs evS claims =
          ⟨false, 1, "verified", a, docs,
            ⟨some "All claims in the answer were successfully verified against the evidence.",
             none, none, none, none, none⟩⟩) ∧
    (∀ (pre : List String) (claim : String) (post : List String) (r : DetectionResult),
        (∀ c ∈ pre, verifyClaim det a docs evS c = none) →
        verifyClaim det a docs evS claim = some r →
        checkClaims det a docs evS (pre ++ claim :: post) = r ∧
          r.details.problem_claim = some claim) ∧
    (¬ pyStrip a = "" → docs ≠ [] →
      (docs.flatMap det.sentTokenize).filter (fun s => !(pyStrip s == "")) ≠ [] →
      detect_hallucination det a docs
        = checkClaims det a docs
            ((docs.flatMap det.sentTokenize).filter fun s => !(pyStrip s == ""))
            (det.sentTokenize a)) := by
  refine ⟨?_, ?_, ?_⟩
  · intro claims
    induction claims with
    | nil => intro _; rfl
    | cons c cs ih =>
      intro h
      have hc := h c (List.mem_cons_self c cs)
      simp only [checkClaims, hc]
      exact ih fun c' hc' => h c' (List.mem_cons_of_mem _ hc')
  · intro pre claim post r
    induction pre with
    | nil =>
      intro _ hclaim
      exact ⟨by simp [checkClaims, hclaim],
        (verifyClaim_some_shape det a docs evS claim r hclaim).2.1⟩
    | cons c cs ih =>
      intro hpre hclaim
      have hc := hpre c (List.mem_cons_self c cs)
      have step : checkClaims det a docs evS ((c :: cs) ++ claim :: post)
          = checkClaims det a docs evS (cs ++ claim :: post) := by
        simp only [List.cons_append, checkClaims, hc, List.append_eq]
      rw [step]
      exact ih (fun c' hc' => hpre c' (List.mem_cons_of_mem _ hc')) hclaim
  · intro h1 h2 h3
    simp [detect_hallucination, h1, h2, h3]

/-- C4 witness: with a passing claim before and an arbitrary claim after,
the contradicted claim "bad" determines the whole result and is named as
the problem claim. -/
theorem first_failing_claim_aggregation_witness :
    checkClaims detFirst "a" ["d"] ["e"] (["good"] ++ "bad" :: ["later"]) =
      ⟨true, mkRat 99 100, "contradiction", "a", ["d"],
        ⟨none, some "bad", some "e", some (mkRat 99 100), none, none⟩⟩ ∧
    (⟨true, mkRat 99 100, "contradiction", "a", ["d"],
        ⟨none, some "bad", some "e", some (mkRat 99 100), none, none⟩⟩ :
      DetectionResult).details.problem_claim = some "bad" :=
  (first_failing_claim_aggregation detFirst "a" ["d"] ["e"]).2.1
    ["good"] "bad" ["later"] _ (by decide) (by decide)


/-- C5 counterexample: for the empty answer and the empty evidence list the
detector returns the empty-answer verdict, not the no-evidence hallucination
verdict — the empty-answer check fires first (line 99 before line 102). -/
theorem no_evidence_counterexample :
    ¬ ((detect_hallucination detEnt "" []).is_hallucination = true ∧
       (detect_hallucination detEnt "" []).detection_method = "no_evidence") := by
  decide

/-- C5 (amended): for every answer whose stripped form is NON-EMPTY, if the
evidence list is empty, or segmenting all evidence documents yields zero
non-empty sentences, detection returns is_hallucination true with method
"no_evidence" and confidence 1, independent of the answer content. -/
theorem no_evidence_amended (det : HallucinationDetector) (a : String)
    (docs : List String)
    (ha : ¬ pyStrip a = "")
    (h : docs = [] ∨
      (docs.flatMap det.sentTokenize).filter (fun s => !(pyStrip s == "")) = []) :
    (detect_hallucination det a docs).is_hallucination = true ∧
    (detect_hallucination det a docs).detection_method = "no_evidence" ∧
    (detect_hallucination det a docs).confidence_score = 1 := by
  rcases h with h | h
  · simp [detect_hallucination, ha, h]
  · by_cases hd : docs = []
    · simp [detect_hallucination, ha, hd]
    · simp [detect_hallucination, ha, hd, h]

/-- C5 (amended) witness: a non-blank answer with no evidence documents. -/
theorem no_evidence_amended_witness :
    (detect_hallucination detEnt "x" []).is_hallucination = true ∧
    (detect_hallucination detEnt "x" []).detection_method = "no_evidence" ∧
    (detect_hallucination detEnt "x" []).confidence_score = 1 :=
  no_evidence_amended detEnt "x" [] (by decide) (Or.inl rfl)

/-- C6 counterexample: with an embedding model that reports cosine
similarity -1/2 (a value in [-1,1]), the low-similarity confidence score
1 - max_similarity is 3/2, exceeding 1 — so confidence is NOT always in
[0,1]. -/
theorem confidence_unit_interval_counterexample :
    ¬ ((detect_hallucination detNeg "a" ["b"]).confidence_score ≤ 1) := by
  have h : (detect_hallucination detNeg "a" ["b"]).confidence_score
      = 1 - mkRat (-1) 2 := rfl
  rw [h, Rat.mkRat_eq_div]
  norm_num

/-- C6 (amended): assuming the NLI contradiction probabilities lie in [0,1]
and the cosine similarities lie in [-1,1], the confidence score of every
detection result lies in [0,2]; it can exceed 1 only on the low-similarity
path, where it equals 1 - max_similarity. -/
theorem confidence_bounds_amended (det : HallucinationDetector) (a : String)
    (docs : List String)
    (hnli : ∀ p hyp, 0 ≤ (det.nli p hyp).contradiction ∧ (det.nli p hyp).contradiction ≤ 1)
    (hsim : ∀ c e, -1 ≤ det.cosSim c e ∧ det.cosSim c e ≤ 1) :
    0 ≤ (detect_hallucination det a docs).confidence_score ∧
      (detect_hallucination det a docs).confidence_score ≤ 2 := by
  have hcc : ∀ (evS claims : List String),
      0 ≤ (checkClaims det a docs evS claims).confidence_score ∧
        (checkClaims det a docs evS claims).confidence_score ≤ 2 := by
    intro evS claims
    induction claims with
    | nil => norm_num [checkClaims]
    | cons c cs ih =>
      cases hv : verifyClaim det a docs evS c with
      | none => simpa [checkClaims, hv] using ih
      | some r =>
        have hres : checkClaims det a docs evS (c :: cs) = r := by
          simp [checkClaims, hv]
        rw [hres]
        obtain ⟨-, -, hne, hconf⟩ := verifyClaim_some_shape det a docs evS c r hv
        rcases hconf with ⟨-, hconf⟩ | ⟨-, hconf⟩
        · have hb : ∀ x ∈ contradictionProbs det evS c, 0 ≤ x ∧ x ≤ 1 := by
            intro x hx
            simp only [contradictionProbs, List.mem_map] at hx
            obtain ⟨s, -, rfl⟩ := hx
            exact hnli s c
          have hmapne : contradictionProbs det evS c ≠ [] := by
            simp only [contradictionProbs, ne_eq, List.map_eq_nil_iff]
            exact hne
          have hbounds := listMax_bounds_of_mem_bounds hb hmapne
          rw [hconf]
          constructor <;> linarith [hbounds.1, hbounds.2]
        · have hb : ∀ x ∈ similarityScores det evS c, -1 ≤ x ∧ x ≤ 1 := by
            intro x hx
            simp only [similarityScores, List.mem_map] at hx
            obtain ⟨s, -, rfl⟩ := hx
            exact hsim c s
          have hmapne : similarityScores det evS c ≠ [] := by
            simp only [similarityScores, ne_eq, List.map_eq_nil_iff]
            exact hne
          have hbounds := listMax_bounds_of_mem_bounds hb hmapne
          rw [hconf]
          constructor <;> linarith [hbounds.1, hbounds.2]
  by_cases h1 : pyStrip a = ""
  · simp [detect_hallucination, h1]
  · by_cases h2 : docs = []
    · simp [detect_hallucination, h1, h2]
    · by_cases h3 :
        (docs.flatMap det.sentTokenize).filter (fun s => !(pyStrip s == "")) = []
      · simp [detect_hallucination, h1, h2, h3]
      · have hrun : detect_hallucination det a docs
            = checkClaims det a docs
                ((docs.flatMap det.sentTokenize).filter fun s => !(pyStrip s == ""))
                (det.sentTokenize a) := by
          simp [detect_hallucination, h1, h2, h3]
        rw [hrun]
        exact hcc _ _

/-- C6 (amended) witness: the bound instantiated at the detector with
similarity -1/2 — the confidence 3/2 is within [0,2]. -/
theorem confidence_bounds_amended_witness :
    0 ≤ (detect_hallucination detNeg "a" ["b"]).confidence_score ∧
      (detect_hallucination detNeg "a" ["b"]).confidence_score ≤ 2 :=
  confidence_bounds_amended detNeg "a" ["b"]
    (fun _ _ => by norm_num [detNeg])
    (fun _ _ => by norm_num [detNeg, Rat.mkRat_eq_div])

/-- C7: for every empty or whitespace-only answer string, detection returns
the non-hallucination empty-answer verdict with confidence 1, whatever the
evidence and the models — the check precedes any claim processing. -/
theorem empty_answer_verdict (det : HallucinationDetector) (a : String)
    (docs : List String) (ha : pyStrip a = "") :
    detect_hallucination det a docs =
      ⟨false, 1, "empty_answer", a, docs,
        ⟨some "Answer was empty.", none, none, none, none, none⟩⟩ := by
  simp [detect_hallucination, ha]

/-- C7 witness: the whitespace-only answer with non-empty evidence. -/
theorem empty_answer_verdict_witness :
    detect_hallucination detEnt "  " ["ev"] =
      ⟨false, 1, "empty_answer", "  ", ["ev"],
        ⟨some "Answer was empty.", none, none, none, none, none⟩⟩ :=
  empty_answer_verdict detEnt "  " ["ev"] (by decide)

/-- Every result of the claim loop is either a hallucination verdict by
contradiction or low similarity, or the terminal "verified" result. -/
theorem checkClaims_shape (det : HallucinationDetector) (a : String)
    (docs : List String) (evS : List String) (claims : List String) :
    ((checkClaims det a docs evS claims).is_hallucination = true ∧
      ((checkClaims det a docs evS claims).detection_method = "contradiction" ∨
       (checkClaims det a docs evS claims).detection_method = "low_similarity")) ∨
    ((checkClaims det a docs evS claims).is_hallucination = false ∧
      (checkClaims det a docs evS claims).detection_method = "verified") := by
  induction claims with
  | nil => exact Or.inr ⟨rfl, rfl⟩
  | cons c cs ih =>
    cases hv : verifyClaim det a docs evS c with
    | none => simpa [checkClaims, hv] using ih
    | some r =>
      have hres : checkClaims det a docs evS (c :: cs) = r := by
        simp [checkClaims, hv]
      rw [hres]
      obtain ⟨h1, -, -, hconf⟩ := verifyClaim_some_shape det a docs evS c r hv
      rcases hconf with ⟨hm, -⟩ | ⟨hm, -⟩
      · exact Or.inl ⟨h1, Or.inl hm⟩
      · exact Or.inl ⟨h1, Or.inr hm⟩

/-- Every detection result is either a hallucination verdict with method
no_evidence, contradiction or low_similarity, or a non-hallucination result
with method verified or empty_answer. -/
theorem detect_shape (det : HallucinationDetector) (a : String) (docs : List String) :
    ((detect_hallucination det a docs).is_hallucination = true ∧
      ((detect_hallucination det a docs).detection_method = "no_evidence" ∨
       (detect_hallucination det a docs).detection_method = "contradiction" ∨
       (detect_hallucination det a docs).detection_method = "low_similarity")) ∨
    ((detect_hallucination det a docs).is_hallucination = false ∧
      ((detect_hallucination det a docs).detection_method = "verified" ∨
       (detect_hallucination det a docs).detection_method = "empty_answer")) := by
  by_cases h1 : pyStrip a = ""
  · right
    simp [detect_hallucination, h1]
  · by_cases h2 : docs = []
    · left
      simp [detect_hallucination, h1, h2]
    · by_cases h3 :
        (docs.flatMap det.sentTokenize).filter (fun s => !(pyStrip s == "")) = []
      · left
        simp [detect_hallucination, h1, h2, h3]
      · have hrun : detect_hallucination det a docs
            = checkClaims det a docs
                ((docs.flatMap det.sentTokenize).filter fun s => !(pyStrip s == ""))
                (det.sentTokenize a) := by
          simp [detect_hallucination, h1, h2, h3]
        rw [hrun]
        rcases checkClaims_shape det a docs
            ((docs.flatMap det.sentTokenize).filter fun s => !(pyStrip s == ""))
            (det.sentTokenize a) with ⟨hh, hm⟩ | ⟨hh, hm⟩
        · exact Or.inl ⟨hh, Or.inr hm⟩
        · exact Or.inr ⟨hh, Or.inl hm⟩

/-- C8: if a detection result has is_hallucination false then its method is
"verified" or "empty_answer"; conversely the methods "no_evidence",
"contradiction" and "low_similarity" occur only with is_hallucination
true. -/
theorem hallucination_flag_methods (det : HallucinationDetector) (a : String)
    (docs : List String) :
    ((detect_hallucination det a docs).is_hallucination = false →
      (detect_hallucination det a docs).detection_method = "verified" ∨
      (detect_hallucination det a docs).detection_method = "empty_answer") ∧
    (((detect_hallucination det a docs).detection_method = "no_evidence" ∨
      (detect_hallucination det a docs).detection_method = "contradiction" ∨
      (detect_hallucination det a docs).detection_method = "low_similarity") →
      (detect_hallucination det a docs).is_hallucination = true) := by
  rcases detect_shape det a docs with ⟨h1, h2⟩ | ⟨h1, h2⟩
  · constructor
    · intro hf
      rw [h1] at hf
      exact absurd hf (by simp)
    · intro _
      exact h1
  · constructor
    · intro _
      exact h2
    · intro hm
      rcases h2 with h2 | h2 <;> rcases hm with hm | hm | hm <;>
        rw [h2] at hm <;> exact absurd hm (by decide)

/-- C8 witness: for a verified answer the flag is false and the method is
among the non-hallucination methods. -/
theorem hallucination_flag_methods_witness :
    (detect_hallucination detEnt "a" ["e"]).detection_method = "verified" ∨
    (detect_hallucination detEnt "a" ["e"]).detection_method = "empty_answer" :=
  (hallucination_flag_methods detEnt "a" ["e"]).1 (by decide)

/-- Every error sentinel built by the retry loop starts with the
"Error:" prefix the pipeline checks for. -/
theorem pyStartsWith_retryErrorMessage (mr : Nat) (lastError : Option String) :
    pyStartsWith (retryErrorMessage mr lastError) "Error:" = true := by
  have hdata : ∀ s t : String, (s ++ t).data = s.data ++ t.data := fun _ _ => rfl
  have htake : ∀ t : List Char,
      ("Error: Failed to generate answer from API after ".data ++ t).take
          ("Error:".data.length) = "Error:".data := by
    intro t
    rw [List.take_append_of_le_length (by decide)]
    decide
  have key : ∀ s : String,
      s.data.take ("Error:".data.length) = "Error:".data →
      pyStartsWith s "Error:" = true := by
    intro s h
    simp only [pyStartsWith]
    rw [h]
    simp
  cases lastError with
  | none =>
    apply key
    simp only [retryErrorMessage, hdata, List.append_assoc]
    exact htake _
  | some e =>
    apply key
    simp only [retryErrorMessage, hdata, List.append_assoc]
    exact htake _

/-- C9: whenever the generated answer starts with "Error:", the pipeline
returns the generation_error hallucination result with confidence 1 without
invoking the detector (the result is the same for every detector function);
and the generator, when every attempt hits the rate limit, returns an
error-prefixed string after the bounded 3 attempts with exponential backoff
waits 1, 2, 4. -/
theorem generation_error_short_circuit (gen : String → String) (q : String)
    (docs : List String)
    (h : pyStartsWith (gen q) "Error:" = true) :
    (∀ detect : String → List String → DetectionResult,
       generate_and_detect gen detect q docs =
         ⟨q, gen q, true, 1, "generation_error", none, none, some (gen q)⟩) ∧
    (∀ (attempts : Nat → AttemptOutcome) (m : Nat → String),
       (∀ i, attempts i = AttemptOutcome.rateLimited (m i)) →
       pyStartsWith (generate_answer true true attempts 3).1 "Error:" = true ∧
       (generate_answer true true attempts 3).2 = [1, 2, 4]) := by
  constructor
  · intro detect
    simp [generate_and_detect, h]
  · intro attempts m hm
    have e3 : genLoop attempts 3 3 (some (m 2)) = (retryErrorMessage 3 (some (m 2)), []) := by
      rw [genLoop]
      simp
    have e2 : genLoop attempts 3 2 (some (m 1))
        = (retryErrorMessage 3 (some (m 2)), [2 ^ 2]) := by
      rw [genLoop]
      simp [hm 2, e3]
    have e1 : genLoop attempts 3 1 (some (m 0))
        = (retryErrorMessage 3 (some (m 2)), [2 ^ 1, 2 ^ 2]) := by
      rw [genLoop]
      simp [hm 1, e2]
    have e0 : genLoop attempts 3 0 none
        = (retryErrorMessage 3 (some (m 2)), [2 ^ 0, 2 ^ 1, 2 ^ 2]) := by
      rw [genLoop]
      simp [hm 0, e1]
    have hg : generate_answer true true attempts 3
        = (retryErrorMessage 3 (some (m 2)), [1, 2, 4]) := by
      simp [generate_answer, e0]
    rw [hg]
    exact ⟨pyStartsWith_retryErrorMessage 3 (some (m 2)), rfl⟩

/-- C9 witness: a generator returning an error sentinel makes the pipeline
return the generation_error result, for a concrete detector. -/
theorem generation_error_short_circuit_witness :
    generate_and_detect (fun _ => "Error: boom")
        (fun a docs => detect_hallucination detEnt a docs) "q" ["e"] =
      ⟨"q", "Error: boom", true, 1, "generation_error", none, none, some "Error: boom"⟩ :=
  (generation_error_short_circuit (fun _ => "Error: boom") "q" ["e"] (by decide)).1 _

/-- C10 counterexample: a generation-model initialization failure (the test
invoke raising, e.g. on quota exhaustion) is swallowed: the constructor
completes with api_working false instead of propagating the error. -/
theorem init_error_propagation_counterexample :
    init_llm (GeminiInitOutcome.testInvokeFails "API quota exceeded")
      = Except.ok ⟨true, false⟩ := rfl

/-- C10 (amended): failures while loading the NLI or embedding models in the
detector constructor propagate to the caller (re-raised as errors), but a
generation-model initialization failure is caught: the GeminiLLM constructor
completes with api_working false, and every subsequent generate_answer call
then returns an error-prefixed string instead of raising. -/
theorem init_failure_amended :
    (∀ e, load_models (ModelLoadOutcome.similarityModelFails e) = Except.error e ∧
          load_models (ModelLoadOutcome.nliTokenizerFails e) = Except.error e ∧
          load_models (ModelLoadOutcome.nliModelFails e) = Except.error e) ∧
    (∀ o, o ≠ GeminiInitOutcome.success →
       ∃ s, init_llm o = Except.ok s ∧ s.apiWorking = false) ∧
    (∀ (hasModel : Bool) (attempts : Nat → AttemptOutcome) (mr : Nat),
       pyStartsWith (generate_answer false hasModel attempts mr).1 "Error:" = true) := by
  refine ⟨fun e => ⟨rfl, rfl, rfl⟩, ?_, ?_⟩
  · intro o ho
    cases o with
    | noApiKey => exact ⟨⟨false, false⟩, rfl, rfl⟩
    | constructionFails e => exact ⟨⟨false, false⟩, rfl, rfl⟩
    | testInvokeFails e => exact ⟨⟨true, false⟩, rfl, rfl⟩
    | success => exact absurd rfl ho
  · intro hasModel attempts mr
    have hg : (generate_answer false hasModel attempts mr).1
        = "Error: Unable to access Gemini API. Please check your configuration and API key." := by
      simp [generate_answer]
    rw [hg]
    decide

/-- C10 (amended) witness: a missing API key leaves a completed constructor
in fallback state, while an NLI model loading failure is re-raised. -/
theorem init_failure_amended_witness :
    (∃ s, init_llm GeminiInitOutcome.noApiKey = Except.ok s ∧ s.apiWorking = false) ∧
    load_models (ModelLoadOutcome.nliModelFails "disk full") = Except.error "disk full" :=
  ⟨init_failure_amended.2.1 GeminiInitOutcome.noApiKey (by decide),
   (init_failure_amended.1 "disk full").2.2⟩
